import Mathlib

/-!
Verification development for the serverless image/file handler.

The development shallowly embeds the two JavaScript source files:
  - `file-request-handler.js` (class `FileRequestHandler`)
  - the dispatcher module (`exports.handler` and `getResponseHeaders`)

JavaScript values are modelled explicitly: thrown values become the
`error` side of `Except`, objects with optional properties become
structures with `Option` fields, and the handful of string operations
used by the source (regular-expression replaces, `split`, `includes`,
`decodeURIComponent`, base64 encoding) are modelled as executable
functions over `List Char` / `List Nat`.
-/

/-- A JavaScript primitive that can appear in the `status` property of a
thrown error object: the source uses both numbers (400, 404, 500) and
strings (`'403'`, `'413'`). -/
inductive JsVal where
  | num (n : Nat)
  | str (s : String)
deriving DecidableEq, Repr

/-- JavaScript truthiness for the primitives we model: `0` and `""` are
falsy, everything else is truthy. -/
def jsTruthy : JsVal → Bool
  | .num n => n != 0
  | .str s => s != ""

/-- A thrown error value.  The object literals thrown by the source all
have the shape `\x7bstatus, code, message\x7d`; a plain `new Error(msg)`
is modelled with `status := none, code := none` (an `Error` instance has
no such own properties). -/
structure JsError where
  status : Option JsVal
  code : Option String
  message : String
deriving DecidableEq, Repr

instance {ε α : Type} [DecidableEq ε] [DecidableEq α] : DecidableEq (Except ε α)
  | .ok a, .ok b => by
    cases h : decide (a = b) with
    | true => exact .isTrue (by simp_all)
    | false => exact .isFalse (by simp_all)
  | .ok _, .error _ => .isFalse (by simp)
  | .error _, .ok _ => .isFalse (by simp)
  | .error a, .error b => by
    cases h : decide (a = b) with
    | true => exact .isTrue (by simp_all)
    | false => exact .isFalse (by simp_all)

/-- Result of a successful `s3.getObject(...).promise()` call. -/
structure S3Object where
  Body : List Nat
  ContentType : Option String := none
  CacheControl : Option String := none
  LastModified : Option String := none
deriving DecidableEq, Repr

/-- Error raised by a failed `s3.getObject(...).promise()` call (the AWS
SDK error carries `code` and `message`). -/
structure S3Error where
  code : String
  message : String
deriving DecidableEq, Repr

/-- The object store, modelled as an oracle from (Bucket, Key) to the
outcome of `getObject`. -/
def S3Store : Type := String → String → Except S3Error S3Object

/-- The environment variables read by the two source files. -/
structure Env where
  SOURCE_BUCKETS : Option String := none
  ENABLE_DEFAULT_FALLBACK_IMAGE : Option String := none
  DEFAULT_FALLBACK_IMAGE_BUCKET : Option String := none
  DEFAULT_FALLBACK_IMAGE_KEY : Option String := none
  CORS_ENABLED : Option String := none
  CORS_ORIGIN : Option String := none
deriving DecidableEq, Repr

/-- An inbound Lambda event: per the external interface it carries a
`path` string; `isAlb` models the presence of `requestContext.elb`. -/
structure Event where
  path : String
  isAlb : Bool := false
deriving DecidableEq, Repr

/-! ### Character classes used by the regular expressions in the source -/

/-- Membership in the JavaScript regular-expression class `\s`
(whitespace): the ASCII whitespace characters together with the Unicode
space characters that `\s` matches. -/
def isJsWhitespace (c : Char) : Bool :=
  c.val == 9 || c.val == 10 || c.val == 11 || c.val == 12 || c.val == 13 ||
  c.val == 32 || c.val == 0xA0 || c.val == 0x1680 ||
  (0x2000 ≤ c.val && c.val ≤ 0x200A) ||
  c.val == 0x2028 || c.val == 0x2029 || c.val == 0x202F ||
  c.val == 0x205F || c.val == 0x3000 || c.val == 0xFEFF

/-- Membership in the JavaScript regular-expression class `\w`
(`[A-Za-z0-9_]`), used to decide the word boundaries `\b`. -/
def isWordChar (c : Char) : Bool :=
  (('A' ≤ c && c ≤ 'Z') || ('a' ≤ c && c ≤ 'z') || ('0' ≤ c && c ≤ '9') || c == '_')

/-- Value of a hexadecimal digit, upper or lower case (code points
48-57 are the decimal digits, 97-102 and 65-70 the letter digits). -/
def hexVal? (c : Char) : Option Nat :=
  let n := c.toNat
  if 48 ≤ n && n ≤ 57 then some (n - 48)
  else if 97 ≤ n && n ≤ 102 then some (n - 87)
  else if 65 ≤ n && n ≤ 70 then some (n - 55)
  else none

/-- Byte value of a two-hex-digit escape. -/
def hexPair? (h1 h2 : Char) : Option Nat :=
  match hexVal? h1, hexVal? h2 with
  | some a, some b => some (16 * a + b)
  | _, _ => none

/-! ### List-level string operations -/

/-- `String.prototype.split` with a one-character separator, on
character lists: `"".split(sep)` is `[""]`, and separators at the ends
produce empty fields, exactly as in JavaScript. -/
def splitOnCharAux (sep : Char) (acc : List Char) : List Char → List (List Char)
  | [] => [acc.reverse]
  | c :: rest =>
    if c == sep then acc.reverse :: splitOnCharAux sep [] rest
    else splitOnCharAux sep (c :: acc) rest

def splitOnChar (sep : Char) (l : List Char) : List (List Char) :=
  splitOnCharAux sep [] l

/-- `replace(/\s/, '')` (no global flag): remove the first `\s`
character, if any. -/
def rmFirstWs : List Char → List Char
  | [] => []
  | c :: rest => if isJsWhitespace c then rest else c :: rmFirstWs rest

/-- `replace(/\s+/g, '')`: remove every `\s` character. -/
def rmAllWs (l : List Char) : List Char := l.filter (fun c => !isJsWhitespace c)

/-- One step of the scanner for `replace(/((\bdownload\/\b)|)/g, '')`.

The regular expression removes every occurrence of the token
`download/` whose first character sits at a word boundary (previous
character absent or not a word character) and whose final `/` sits at a
word boundary (the next character exists and is a word character); the
empty alternative makes every other position a zero-length match, which
the replacement leaves unchanged.  `prevWord` records whether the
character before the current position is a word character.

When the nine token characters are present but one of the two
boundaries fails, no new match can begin inside the token (a match
needs `d` followed by `o`, and the only other `d` in `download/` is
followed by `/`), so the scanner may emit the whole token and resume
after its `/` (a non-word character, hence `prevWord := false`). -/
def stripDownloadAux : Bool → List Char → List Char
  | _, [] => []
  | prevWord, 'd' :: 'o' :: 'w' :: 'n' :: 'l' :: 'o' :: 'a' :: 'd' :: '/' :: rest =>
    if !prevWord && (match rest with | c :: _ => isWordChar c | [] => false) then
      stripDownloadAux false rest
    else
      'd' :: 'o' :: 'w' :: 'n' :: 'l' :: 'o' :: 'a' :: 'd' :: '/' :: stripDownloadAux false rest
  | _, c :: rest => c :: stripDownloadAux (isWordChar c) rest

/-- `replace(/\)/g, '')`: delete every right parenthesis. -/
def rmRParens (l : List Char) : List Char := l.filter (fun c => c != ')')

/-- `replace(/^\/+/, '')`: strip leading slashes. -/
def stripLeadingSlashes (l : List Char) : List Char := l.dropWhile (fun c => c == '/')

/-! ### `decodeURIComponent`

Modelled after the ECMA-262 `Decode` abstract operation with an empty
reserved set: `%`-escapes are decoded as a strict UTF-8 byte stream
(continuation bytes must themselves be `%`-escapes; overlong forms,
surrogate encodings and out-of-range lead bytes are malformed), any
other character passes through unchanged, and a malformed input yields
`none` (the `URIError` that `decodeURIComponent` throws). -/

def isContByte (b : Nat) : Bool := 0x80 ≤ b && b ≤ 0xBF

/-- Constraint on the second byte of a three-byte sequence (rules out
overlong encodings for lead `E0` and surrogates for lead `ED`). -/
def cont3ok (b b2 : Nat) : Bool :=
  if b == 0xE0 then 0xA0 ≤ b2 && b2 ≤ 0xBF
  else if b == 0xED then 0x80 ≤ b2 && b2 ≤ 0x9F
  else isContByte b2

/-- Constraint on the second byte of a four-byte sequence (rules out
overlong encodings for lead `F0` and values above U+10FFFF for lead
`F4`). -/
def cont4ok (b b2 : Nat) : Bool :=
  if b == 0xF0 then 0x90 ≤ b2 && b2 ≤ 0xBF
  else if b == 0xF4 then 0x80 ≤ b2 && b2 ≤ 0x8F
  else isContByte b2

def decURI : List Char → Option (List Char)
  | [] => some []
  | '%' :: h1 :: h2 :: rest =>
    match hexPair? h1 h2 with
    | none => none
    | some b =>
      if b < 0x80 then
        (decURI rest).map (Char.ofNat b :: ·)
      else if 0xC2 ≤ b && b ≤ 0xDF then
        match rest with
        | '%' :: g1 :: g2 :: rest2 =>
          match hexPair? g1 g2 with
          | some b2 =>
            if isContByte b2 then
              (decURI rest2).map (Char.ofNat ((b - 0xC0) * 64 + (b2 - 0x80)) :: ·)
            else none
          | none => none
        | _ => none
      else if 0xE0 ≤ b && b ≤ 0xEF then
        match rest with
        | '%' :: g1 :: g2 :: '%' :: k1 :: k2 :: rest3 =>
          match hexPair? g1 g2, hexPair? k1 k2 with
          | some b2, some b3 =>
            if cont3ok b b2 && isContByte b3 then
              (decURI rest3).map
                (Char.ofNat ((b - 0xE0) * 4096 + (b2 - 0x80) * 64 + (b3 - 0x80)) :: ·)
            else none
          | _, _ => none
        | _ => none
      else if 0xF0 ≤ b && b ≤ 0xF4 then
        match rest with
        | '%' :: g1 :: g2 :: '%' :: k1 :: k2 :: '%' :: m1 :: m2 :: rest4 =>
          match hexPair? g1 g2, hexPair? k1 k2, hexPair? m1 m2 with
          | some b2, some b3, some b4 =>
            if cont4ok b b2 && isContByte b3 && isContByte b4 then
              (decURI rest4).map
                (Char.ofNat ((b - 0xF0) * 262144 + (b2 - 0x80) * 4096 +
                  (b3 - 0x80) * 64 + (b4 - 0x80)) :: ·)
            else none
          | _, _, _ => none
        | _ => none
      else none
  | '%' :: _ => none
  | c :: rest => (decURI rest).map (c :: ·)

def decodeURIComponent (s : String) : Option String :=
  (decURI s.data).map String.mk

/-! ### Base64 encoding (`Buffer.prototype.toString('base64')`) -/

def base64Alphabet : List Char :=
  "ABCDEFGHIJKLMNOPQRSTUVWXYZabcdefghijklmnopqrstuvwxyz0123456789+/".data

def b64Char (n : Nat) : Char := base64Alphabet.getD n 'A'

def base64EncodeList : List Nat → List Char
  | [] => []
  | [b1] => [b64Char (b1 / 4), b64Char (b1 % 4 * 16), '=', '=']
  | [b1, b2] => [b64Char (b1 / 4), b64Char (b1 % 4 * 16 + b2 / 16), b64Char (b2 % 16 * 4), '=']
  | b1 :: b2 :: b3 :: rest =>
    b64Char (b1 / 4) :: b64Char (b1 % 4 * 16 + b2 / 16) ::
    b64Char (b2 % 16 * 4 + b3 / 64) :: b64Char (b3 % 64) :: base64EncodeList rest

def base64Encode (bytes : List Nat) : String := String.mk (base64EncodeList bytes)

/-! ## `FileRequestHandler` (file-request-handler.js) -/

namespace FileRequestHandler

/-- Error thrown by `getAllowedSourceBuckets` when `SOURCE_BUCKETS` is
undefined. -/
def noSourceBucketsError : JsError :=
  { status := some (.num 400)
    code := some "GetAllowedSourceBuckets::NoSourceBuckets"
    message := "The SOURCE_BUCKETS variable could not be read. Please check that it is not empty and contains at least one source bucket, or multiple buckets separated by commas. Spaces can be provided between commas and bucket names, these will be automatically parsed out when decoding." }

/-- Error thrown by `parseFileKey` when `decodeURIComponent` throws. -/
def cannotFindFileError : JsError :=
  { status := some (.num 404)
    code := some "FileEdits::CannotFindFile"
    message := "The file you specified could not be found. Please check your request syntax as well as the bucket you specified to ensure it exists." }

/-- Error thrown by `process` when the encoded payload is too large.
Note that the source writes the status as the string literal `'413'`. -/
def tooLargeImageError : JsError :=
  { status := some (.str "413")
    code := some "TooLargeImageException"
    message := "The converted image is too large to return." }

/-- The error object in the `catch` branch of `checkAccess`.  It is
thrown only if `key.split` itself throws, which cannot happen for a
string key, so this value is unreachable in the modelled flow; the
source writes its status as the string literal `'403'`. -/
def invalidFolderAccessError : JsError :=
  { status := some (.str "403")
    code := some "Invalid folder access"
    message := "The path you are trying to access in not allowed" }

/-- `await Promise.reject(new Error('Invalid operation'))` in `setup`:
an `Error` instance, carrying only a message. -/
def invalidOperationError : JsError :=
  { status := none, code := none, message := "Invalid operation" }

/-- `getAllowedSourceBuckets`: read `SOURCE_BUCKETS`, strip all
whitespace, split on commas. -/
def getAllowedSourceBuckets (env : Env) : Except JsError (List String) :=
  match env.SOURCE_BUCKETS with
  | none => .error noSourceBucketsError
  | some sourceBuckets =>
    .ok ((splitOnChar ',' (rmAllWs sourceBuckets.data)).map String.mk)

/-- `parseFileBucket(event)`: the first entry of the allowed bucket
list.  `split` always returns a non-empty array, so index `[0]` is the
head; the `event` argument is ignored by the source. -/
def parseFileBucket (env : Env) (_event : Event) : Except JsError String :=
  (getAllowedSourceBuckets env).map (fun buckets => buckets.headD "")

/-- `parseFileKey(event)`: strip the `download/` tokens, delete right
parentheses, strip leading slashes, then `decodeURIComponent`; a decode
failure is caught and rethrown as `cannotFindFileError`. -/
def parseFileKey (path : String) : Except JsError String :=
  match decodeURIComponent
      (String.mk (stripLeadingSlashes (rmRParens (stripDownloadAux false path.data)))) with
  | some key => .ok key
  | none => .error cannotFindFileError

/-- The folder allow-list in `checkAccess`. -/
def allowed_folders : List String :=
  ["csv_images", "inventory-csv", "processing-csv", "sample-csv"]

/-- `checkAccess(key)`: membership of `key.split('/')[0]` in the
allow-list.  The `catch` branch (throwing `invalidFolderAccessError`)
cannot fire for a string key. -/
def checkAccess (key : String) : Bool :=
  allowed_folders.contains (String.mk ((splitOnChar '/' key.data).headD []))

/-- What `getOriginalFile` records on the handler on success. -/
structure FetchedFile where
  Body : List Nat
  ContentType : Option String
  CacheControl : String
deriving DecidableEq, Repr

/-- `getOriginalFile(bucket, key)`: fetch the object; on success record
`ContentType` and `CacheControl` (defaulting the latter when the
metadata value is absent or falsy); on failure rethrow with status 404
for `NoSuchKey` and 500 otherwise, propagating the code and appending
the key to the message. -/
def getOriginalFile (store : S3Store) (bucket key : String) : Except JsError FetchedFile :=
  match store bucket key with
  | .ok obj =>
    .ok { Body := obj.Body
          ContentType := obj.ContentType
          CacheControl :=
            match obj.CacheControl with
            | some c => if c != "" then c else "max-age=31536000,public"
            | none => "max-age=31536000,public" }
  | .error e =>
    .error { status := some (.num (if e.code = "NoSuchKey" then 404 else 500))
             code := some e.code
             message := e.message ++ " File Key : " ++ key }

/-- The resolved file request (the fields of the handler instance that
`setup` populates and the dispatcher reads). -/
structure ResolvedFileRequest where
  bucket : String
  key : String
  originalFile : List Nat
  ContentType : Option String
  CacheControl : String
deriving DecidableEq, Repr

/-- `setup(event)`: bucket, then key, then `checkAccess`; on a positive
check fetch the object, otherwise reject with a plain
`Error('Invalid operation')`.  The surrounding `catch` only logs and
rethrows. -/
def setup (env : Env) (store : S3Store) (event : Event) :
    Except JsError ResolvedFileRequest :=
  match parseFileBucket env event with
  | .error e => .error e
  | .ok bucket =>
    match parseFileKey event.path with
    | .error e => .error e
    | .ok key =>
      if checkAccess key then
        match getOriginalFile store bucket key with
        | .error e => .error e
        | .ok f =>
          .ok { bucket := bucket, key := key, originalFile := f.Body
                ContentType := f.ContentType, CacheControl := f.CacheControl }
      else .error invalidOperationError

/-- The Lambda payload hard limit used by `process`. -/
def lambdaPayloadLimit : Nat := 6 * 1024 * 1024

/-- `process(request)`: `Buffer.from(request.originalFile, 'base64')`
copies the bytes (the encoding argument is ignored when the input is
already a `Buffer`), `toString('base64')` encodes them; lengths beyond
the payload limit throw `tooLargeImageError`. -/
def process (request : ResolvedFileRequest) : Except JsError String :=
  let returnFile := base64Encode request.originalFile
  if returnFile.length > lambdaPayloadLimit then .error tooLargeImageError
  else .ok returnFile

end FileRequestHandler

/-! ## Request dispatcher (the module with `exports.handler`) -/

namespace Dispatcher

open FileRequestHandler

/-- A header value: a string, the boolean `true` used for
`Access-Control-Allow-Credentials`, or `undefined` (assigning
`undefined` in JavaScript still creates the property). -/
inductive HVal where
  | str (s : String)
  | bool (b : Bool)
  | undefinedV
deriving DecidableEq, Repr

def optHVal : Option String → HVal
  | some s => .str s
  | none => .undefinedV

/-- A JavaScript headers object: property names with values, in
insertion order. -/
abbrev Headers := List (String × HVal)

/-- Property assignment `h[k] = v`: overwrite in place if the property
exists, append otherwise. -/
def setH (h : Headers) (k : String) (v : HVal) : Headers :=
  if h.any (fun p => p.1 == k) then h.map (fun p => if p.1 == k then (k, v) else p)
  else h ++ [(k, v)]

/-- Property lookup: `some v` when the property is present. -/
def getH (h : Headers) (k : String) : Option HVal :=
  (h.find? (fun p => p.1 == k)).map (·.2)

/-- `getResponseHeaders(isErr, isAlb)`. -/
def getResponseHeaders (env : Env) (isErr isAlb : Bool) : Headers :=
  let h0 : Headers :=
    [("Access-Control-Allow-Methods", .str "GET"),
     ("Access-Control-Allow-Headers", .str "Content-Type, Authorization")]
  let h1 := if !isAlb then setH h0 "Access-Control-Allow-Credentials" (.bool true) else h0
  let h2 :=
    if env.CORS_ENABLED == some "Yes" then
      setH h1 "Access-Control-Allow-Origin" (optHVal env.CORS_ORIGIN)
    else h1
  if isErr then setH h2 "Content-Type" (.str "application/json") else h2

/-- The response object returned by `handler`. -/
structure Response where
  statusCode : JsVal
  isBase64Encoded : Bool
  headers : Headers
  body : String
deriving DecidableEq, Repr

/-- The metadata fields the dispatcher reads off the value returned by
`setup` (`ContentType`, `Expires`, `LastModified`, `CacheControl`,
`headers`); for the file flow `Expires`, `LastModified` and `headers`
are never set. -/
structure RequestMeta where
  ContentType : HVal := .undefinedV
  Expires : HVal := .undefinedV
  LastModified : HVal := .undefinedV
  CacheControl : HVal := .undefinedV
  headers : Option Headers := none
deriving DecidableEq, Repr

/-- The metadata the dispatcher sees after a successful file-flow
`setup`. -/
def metaOfFile (r : ResolvedFileRequest) : RequestMeta :=
  { ContentType := optHVal r.ContentType
    Expires := .undefinedV
    LastModified := .undefinedV
    CacheControl := .str r.CacheControl
    headers := none }

/-- The image flow (`ImageRequest.setup` then `ImageHandler.process`):
the two modules are external collaborators, modelled as an oracle from
the event to either a thrown error or metadata plus processed body. -/
def ImageFlow : Type := Event → Except JsError (RequestMeta × String)

/-- `String.prototype.includes`: substring containment. -/
def strContains (s pat : String) : Bool := decide (pat.data <:+: s.data)

/-- The file branch of the `try` block: `fileRequestHandler.setup`
followed by `fileRequestHandler.process`. -/
def fileFlowAttempt (env : Env) (store : S3Store) (event : Event) :
    Except JsError (RequestMeta × String) :=
  match setup env store event with
  | .error e => .error e
  | .ok r =>
    match process r with
    | .error e => .error e
    | .ok body => .ok (metaOfFile r, body)

/-- The body of the `try` block: route on `fqdn.includes("download")`. -/
def attemptOf (env : Env) (store : S3Store) (imageFlow : ImageFlow) (event : Event) :
    Except JsError (RequestMeta × String) :=
  if strContains event.path "download" then fileFlowAttempt env store event
  else imageFlow event

/-- Success response assembly: the shared headers, then `Content-Type`,
`Expires`, (for file requests) `Content-Disposition`, `Last-Modified`,
`Cache-Control`, then the custom header overlay. -/
def successResponse (env : Env) (isFile isAlb : Bool) (meta : RequestMeta)
    (body : String) : Response :=
  let h := getResponseHeaders env false isAlb
  let h := setH h "Content-Type" meta.ContentType
  let h := setH h "Expires" meta.Expires
  let h := if isFile then setH h "Content-Disposition" (.str "attachment") else h
  let h := setH h "Last-Modified" meta.LastModified
  let h := setH h "Cache-Control" meta.CacheControl
  let h := match meta.headers with
    | some hs => hs.foldl (fun acc p => setH acc p.1 p.2) h
    | none => h
  { statusCode := .num 200, isBase64Encoded := true, headers := h, body := body }

/-- Minimal JSON string escaping (quote and backslash); the error
messages in the source contain neither. -/
def escapeJson (s : String) : String :=
  String.mk (s.data.foldr
    (fun c acc =>
      if c == '"' then '\\' :: '"' :: acc
      else if c == '\\' then '\\' :: '\\' :: acc
      else c :: acc) [])

def serStr (s : String) : String := "\"" ++ escapeJson s ++ "\""

def serVal : JsVal → String
  | .num n => toString n
  | .str s => serStr s

/-- `JSON.stringify` of the thrown object literals, whose property
order is `status`, `code`, `message`; absent (`undefined`) properties
are omitted. -/
def jsonStringify (e : JsError) : String :=
  "\x7b" ++
    String.intercalate ","
      ((match e.status with | some v => ["\"status\":" ++ serVal v] | none => []) ++
       (match e.code with | some c => ["\"code\":" ++ serStr c] | none => []) ++
       ["\"message\":" ++ serStr e.message]) ++
  "\x7d"

/-- The fixed generic 500 body; the object literal in the source is
written in the order `message`, `code`, `status`. -/
def internalErrorBody : String :=
  "\x7b\"message\":\"Internal error. Please contact the system administrator.\",\"code\":\"InternalError\",\"status\":500\x7d"

/-- `err.status ? err.status : 500`. -/
def statusOr500 : Option JsVal → JsVal
  | some v => if jsTruthy v then v else .num 500
  | none => .num 500

/-- The structured-error tail of the `catch` block. -/
def structuredErrorResponse (env : Env) (isAlb : Bool) (err : JsError) : Response :=
  match err.status with
  | some v =>
    if jsTruthy v then
      { statusCode := v, isBase64Encoded := false
        headers := getResponseHeaders env true isAlb, body := jsonStringify err }
    else
      { statusCode := .num 500, isBase64Encoded := false
        headers := getResponseHeaders env true isAlb, body := internalErrorBody }
  | none =>
    { statusCode := .num 500, isBase64Encoded := false
      headers := getResponseHeaders env true isAlb, body := internalErrorBody }

/-- Truthiness of an environment variable (`undefined` and `""` are
falsy). -/
def truthyOptStr : Option String → Bool
  | some s => s != ""
  | none => false

/-- The fallback-image guard: enable flag strictly equal to `'Yes'`,
bucket and key truthy and still non-empty after `replace(/\s/, '')`,
which removes only the first whitespace character. -/
def fallbackConfigured (env : Env) : Bool :=
  env.ENABLE_DEFAULT_FALLBACK_IMAGE == some "Yes"
  && truthyOptStr env.DEFAULT_FALLBACK_IMAGE_BUCKET
  && String.mk (rmFirstWs (env.DEFAULT_FALLBACK_IMAGE_BUCKET.getD "").data) != ""
  && truthyOptStr env.DEFAULT_FALLBACK_IMAGE_KEY
  && String.mk (rmFirstWs (env.DEFAULT_FALLBACK_IMAGE_KEY.getD "").data) != ""

/-- The `catch` block, instrumented: the boolean records whether the
fallback fetch was attempted.  A failed fallback fetch is caught and
falls through to the structured-error tail. -/
def errorResponseI (env : Env) (store : S3Store) (isAlb : Bool) (err : JsError) :
    Response × Bool :=
  if fallbackConfigured env then
    match store (env.DEFAULT_FALLBACK_IMAGE_BUCKET.getD "")
        (env.DEFAULT_FALLBACK_IMAGE_KEY.getD "") with
    | .ok obj =>
      let h := getResponseHeaders env false isAlb
      let h := setH h "Content-Type" (optHVal obj.ContentType)
      let h := setH h "Last-Modified" (optHVal obj.LastModified)
      let h := setH h "Cache-Control" (.str "max-age=31536000,public")
      ({ statusCode := statusOr500 err.status, isBase64Encoded := true
         headers := h, body := base64Encode obj.Body }, true)
    | .error _ => (structuredErrorResponse env isAlb err, true)
  else (structuredErrorResponse env isAlb err, false)

def errorResponse (env : Env) (store : S3Store) (isAlb : Bool) (err : JsError) : Response :=
  (errorResponseI env store isAlb err).1

/-- `exports.handler`: classify, attempt the matching flow, and build
either the success response or the catch-block response. -/
def handler (env : Env) (store : S3Store) (imageFlow : ImageFlow) (event : Event) :
    Response :=
  let isFile := strContains event.path "download"
  match attemptOf env store imageFlow event with
  | .ok (meta, body) => successResponse env isFile event.isAlb meta body
  | .error err => errorResponse env store event.isAlb err

end Dispatcher

/-! ## Supporting lemmas -/

theorem base64EncodeList_length (bytes : List Nat) :
    (base64EncodeList bytes).length = 4 * ((bytes.length + 2) / 3) := by
  induction bytes using base64EncodeList.induct with
  | case1 => rfl
  | case2 _ => simp [base64EncodeList]
  | case3 _ _ => simp [base64EncodeList]
  | case4 b1 b2 b3 rest ih => simp [base64EncodeList, ih]; omega

theorem base64Encode_length (bytes : List Nat) :
    (base64Encode bytes).length = 4 * ((bytes.length + 2) / 3) :=
  base64EncodeList_length bytes

namespace Dispatcher

theorem find?_map_set (k : String) (v : HVal) (h : Headers)
    (hh : h.any (fun p => p.1 == k) = true) :
    (h.map (fun p => if p.1 == k then (k, v) else p)).find? (fun p => p.1 == k) =
      some (k, v) := by
  induction h with
  | nil => simp at hh
  | cons p t ih =>
    by_cases hp : (p.1 == k) = true
    · rw [List.map_cons, if_pos hp]
      exact List.find?_cons_of_pos _ (by simp)
    · have hp' : (p.1 == k) = false := by simpa using hp
      have ht : t.any (fun q => q.1 == k) = true := by simpa [hp'] using hh
      rw [List.map_cons, if_neg hp, List.find?_cons_of_neg _ (by simp [hp'])]
      exact ih ht

theorem find?_eq_none_of_any_false (k : String) (h : Headers)
    (hh : h.any (fun p => p.1 == k) = false) :
    h.find? (fun p => p.1 == k) = none := by
  induction h with
  | nil => rfl
  | cons p t ih =>
    simp only [List.any_cons, Bool.or_eq_false_iff] at hh
    simp [List.find?, hh.1, ih hh.2]

/-- Looking up a property right after assigning it yields the assigned
value. -/
theorem getH_setH (h : Headers) (k : String) (v : HVal) :
    getH (setH h k v) k = some v := by
  unfold setH getH
  cases hh : h.any (fun p => p.1 == k) with
  | true =>
    rw [if_pos rfl, find?_map_set k v h hh]
    rfl
  | false =>
    rw [if_neg (by simp), List.find?_append, find?_eq_none_of_any_false k h hh]
    simp [List.find?]

end Dispatcher

/-- If `download` does not occur as a substring of the input, the
`download/`-token scanner leaves the input unchanged. -/
theorem stripDownloadAux_eq_self (prevWord : Bool) (l : List Char)
    (h : ¬ "download".data <:+: l) : stripDownloadAux prevWord l = l := by
  induction prevWord, l using stripDownloadAux.induct with
  | case1 _ => rfl
  | case2 prevWord rest _ _ =>
    exact absurd ⟨[], '/' :: rest, rfl⟩ h
  | case3 prevWord rest _ _ =>
    exact absurd ⟨[], '/' :: rest, rfl⟩ h
  | case4 prevWord c rest _ ih =>
    have : ¬ "download".data <:+: rest := fun hi => h (List.infix_cons hi)
    simp [stripDownloadAux, ih this]

/-! ## Concrete fixtures used by counterexamples and witnesses -/

open FileRequestHandler Dispatcher

def storeErr : S3Store := fun _ _ => .error { code := "AccessDenied", message := "Access Denied" }

def storeNoKey : S3Store := fun _ _ =>
  .error { code := "NoSuchKey", message := "The specified key does not exist." }

def fbObj : S3Object :=
  { Body := [1, 2, 3], ContentType := some "image/png"
    LastModified := some "Mon, 06 Oct 2025 00:00:00 GMT" }

def storeFallback : S3Store := fun _ _ => .ok fbObj

def parenObj : S3Object := { Body := [5, 6], ContentType := some "text/csv" }

def storeParen : S3Store := fun _ key =>
  if key == "csv_images/a)b.csv" then .ok parenObj
  else .error { code := "NoSuchKey", message := "not found" }

def imfNever : ImageFlow := fun _ =>
  .error { status := none, code := none, message := "image flow not exercised" }

def envNoBuckets : Env := {}

def envBucketOnly : Env := { SOURCE_BUCKETS := some "source-bucket-1" }

def envTwoSpaceBucket : Env :=
  { ENABLE_DEFAULT_FALLBACK_IMAGE := some "Yes"
    DEFAULT_FALLBACK_IMAGE_BUCKET := some "  "
    DEFAULT_FALLBACK_IMAGE_KEY := some "fallback.png" }

def envFallbackOk : Env :=
  { ENABLE_DEFAULT_FALLBACK_IMAGE := some "Yes"
    DEFAULT_FALLBACK_IMAGE_BUCKET := some "fb-bucket"
    DEFAULT_FALLBACK_IMAGE_KEY := some "fb.png" }

def err404 : JsError := { status := some (.num 404), code := some "NoSuchKey", message := "missing" }

def errPlain : JsError := { status := none, code := none, message := "boom" }

def smallReq : ResolvedFileRequest :=
  { bucket := "b", key := "csv_images/m.bin", originalFile := [77, 97, 110]
    ContentType := none, CacheControl := "max-age=31536000,public" }

def bigReq : ResolvedFileRequest :=
  { bucket := "b", key := "csv_images/big.bin", originalFile := List.replicate 4718593 0
    ContentType := none, CacheControl := "max-age=31536000,public" }

/-- The key-resolution procedure exactly as the claim words it: strip
the first occurrence only of the literal token `download/`, strip
leading slashes, then percent-decode. -/
def claimC5ResolveKeyFirstOnly (path : String) : Except JsError String :=
  match decodeURIComponent (String.mk (stripLeadingSlashes (rmFirstDownloadToken path.data))) with
  | some key => .ok key
  | none => .error cannotFindFileError
where
  rmFirstDownloadToken : List Char → List Char
    | [] => []
    | 'd' :: 'o' :: 'w' :: 'n' :: 'l' :: 'o' :: 'a' :: 'd' :: '/' :: rest => rest
    | c :: rest => c :: rmFirstDownloadToken rest

/-! ## Claim theorems -/

/-- Claim C1, counterexample: for the key `secret/foo.csv`, whose first
segment is not allow-listed, `setup` fails with the status-less,
code-less `Error('Invalid operation')`, not with a 403-status
`Invalid folder access` error as the claim states. -/
theorem C1_counterexample :
    setup envBucketOnly storeErr { path := "/download/secret/foo.csv" } =
      .error invalidOperationError ∧
    invalidOperationError.status ≠ some (.num 403) ∧
    invalidOperationError.status ≠ some (.str "403") ∧
    invalidOperationError.code ≠ some "Invalid folder access" := by
  decide

/-- Claim C1, amended: for every event whose resolved key has a first
`/`-separated segment outside the allow-list, `checkAccess` returns
false and `setup` fails with the plain `Error('Invalid operation')`,
which carries no status and no code (the 403 `Invalid folder access`
object sits in an unreachable catch branch); the conclusion holds for
every store, so no object-store fetch influences the outcome. -/
theorem C1_amended (env : Env) (store : S3Store) (event : Event) (sb key : String)
    (h1 : env.SOURCE_BUCKETS = some sb)
    (h2 : parseFileKey event.path = .ok key)
    (h3 : checkAccess key = false) :
    setup env store event = .error invalidOperationError ∧
    invalidOperationError.status = none ∧ invalidOperationError.code = none := by
  refine ⟨?_, rfl, rfl⟩
  simp [setup, parseFileBucket, getAllowedSourceBuckets, h1, h2, h3, Except.map]

/-- Claim C1, witness: concrete run of the amended theorem. -/
theorem C1_witness :
    setup envBucketOnly storeNoKey { path := "/download/secret/foo.csv" } =
      .error invalidOperationError :=
  (C1_amended envBucketOnly storeNoKey { path := "/download/secret/foo.csv" }
    "source-bucket-1" "secret/foo.csv" rfl (by decide) (by decide)).1

/-- Claim C2, counterexample: on a 4718593-byte file the encoded output
has 6291460 characters, exceeding the 6291456 limit, and `process`
fails with an error whose status is the string `'413'`, not the numeric
HTTP status 413 the claim states. -/
theorem C2_counterexample :
    process bigReq = .error tooLargeImageError ∧
    tooLargeImageError.status = some (.str "413") ∧
    tooLargeImageError.status ≠ some (.num 413) := by
  refine ⟨?_, by decide, by decide⟩
  have h1 : bigReq.originalFile = List.replicate 4718593 0 := rfl
  have hb : (base64Encode bigReq.originalFile).length = 6291460 := by
    rw [base64Encode_length, h1, List.length_replicate]
  have hgt : 6291460 > lambdaPayloadLimit := by norm_num [lambdaPayloadLimit]
  simp only [process]
  rw [hb, if_pos hgt]

/-- Claim C2, amended: `process` base64-encodes the original file bytes
and, whenever the encoded length (4 * ceil(n/3) characters) exceeds
6 * 1024 * 1024, fails with code `TooLargeImageException` and status
equal to the string `'413'` (not a numeric status); otherwise it
returns the encoded string. -/
theorem C2_amended (r : ResolvedFileRequest) :
    (4 * ((r.originalFile.length + 2) / 3) > 6 * 1024 * 1024 →
      process r = .error tooLargeImageError) ∧
    (4 * ((r.originalFile.length + 2) / 3) ≤ 6 * 1024 * 1024 →
      process r = .ok (base64Encode r.originalFile)) ∧
    tooLargeImageError.status = some (.str "413") ∧
    tooLargeImageError.code = some "TooLargeImageException" := by
  refine ⟨fun h => ?_, fun h => ?_, rfl, rfl⟩
  · simp only [process, lambdaPayloadLimit]
    rw [base64Encode_length, if_pos (by omega)]
  · simp only [process, lambdaPayloadLimit]
    rw [base64Encode_length, if_neg (by omega)]

/-- Claim C2, witness: a three-byte file is returned base64-encoded. -/
theorem C2_witness : process smallReq = .ok "TWFu" := by
  have h := (C2_amended smallReq).2.1 (by decide)
  rw [h]
  decide

/-- Claim C3, counterexample: with a fallback bucket of two spaces —
empty after whitespace stripping, so the claim says no fallback fetch
is attempted — the dispatcher attempts the fetch anyway (the source
strips only the first whitespace character) and serves the fallback
response. -/
theorem C3_counterexample :
    (errorResponseI envTwoSpaceBucket storeFallback false errPlain).2 = true ∧
    (errorResponseI envTwoSpaceBucket storeFallback false errPlain).1.isBase64Encoded = true ∧
    rmAllWs "  ".data = [] := by
  decide

/-- Claim C3, amended: the dispatcher attempts the fallback-image fetch
exactly when the enable flag equals `Yes` and the fallback bucket and
key are both non-empty and remain non-empty after removing the first
whitespace character (not after full whitespace stripping); on
fallback-fetch success it responds with the original error status if
truthy else 500, the base64-encoded fallback body with
`isBase64Encoded` true, and the header
`Cache-Control: max-age=31536000,public`; on fallback-fetch failure it
falls back to the structured-error response. -/
theorem C3_amended (env : Env) (store : S3Store) (isAlb : Bool) (err : JsError) :
    (errorResponseI env store isAlb err).2 = fallbackConfigured env ∧
    (∀ obj, fallbackConfigured env = true →
      store (env.DEFAULT_FALLBACK_IMAGE_BUCKET.getD "")
        (env.DEFAULT_FALLBACK_IMAGE_KEY.getD "") = .ok obj →
      (errorResponseI env store isAlb err).1.statusCode = statusOr500 err.status ∧
      (errorResponseI env store isAlb err).1.isBase64Encoded = true ∧
      (errorResponseI env store isAlb err).1.body = base64Encode obj.Body ∧
      getH (errorResponseI env store isAlb err).1.headers "Cache-Control" =
        some (.str "max-age=31536000,public")) ∧
    (∀ e, fallbackConfigured env = true →
      store (env.DEFAULT_FALLBACK_IMAGE_BUCKET.getD "")
        (env.DEFAULT_FALLBACK_IMAGE_KEY.getD "") = .error e →
      (errorResponseI env store isAlb err).1 = structuredErrorResponse env isAlb err) := by
  refine ⟨?_, ?_, ?_⟩
  · cases hc : fallbackConfigured env with
    | true =>
      cases hst : store (env.DEFAULT_FALLBACK_IMAGE_BUCKET.getD "")
          (env.DEFAULT_FALLBACK_IMAGE_KEY.getD "") <;>
        simp [errorResponseI, hc, hst]
    | false => simp [errorResponseI, hc]
  · intro obj hc hst
    simp [errorResponseI, hc, hst, getH_setH]
  · intro e hc hst
    simp [errorResponseI, hc, hst]

/-- Claim C3, witness: with a fully configured fallback and a store
that serves the fallback object, a 404 failure yields a 404 response
carrying the fallback bytes and the long-lived cache header. -/
theorem C3_witness :
    (errorResponseI envFallbackOk storeFallback false err404).1.statusCode = JsVal.num 404 ∧
    (errorResponseI envFallbackOk storeFallback false err404).1.body = base64Encode fbObj.Body ∧
    getH (errorResponseI envFallbackOk storeFallback false err404).1.headers "Cache-Control" =
      some (.str "max-age=31536000,public") := by
  have h := (C3_amended envFallbackOk storeFallback false err404).2.1 fbObj (by decide) rfl
  exact ⟨h.1.trans (by decide), h.2.2.1, h.2.2.2⟩

/-- Claim C4: for every inbound event (with its path string), every
store behaviour and every image-flow behaviour — all failures of either
flow being modelled as `Except.error` values that the catch block
receives — the dispatcher terminates with exactly one well-formed
response record; no failure escapes `handler`. -/
theorem C4_always_one_response (env : Env) (store : S3Store) (imf : ImageFlow)
    (event : Event) :
    ∃! r : Response, handler env store imf event = r :=
  ⟨handler env store imf event, rfl, fun _ h => h.symm⟩

/-- Claim C5, counterexample: on the path
`/download/download/csv_images/x.csv` the source removes both
`download/` tokens, while the resolution procedure as the claim words
it (first occurrence only) keeps the second one. -/
theorem C5_counterexample :
    parseFileKey "/download/download/csv_images/x.csv" = .ok "csv_images/x.csv" ∧
    claimC5ResolveKeyFirstOnly "/download/download/csv_images/x.csv" =
      .ok "download/csv_images/x.csv" ∧
    ("csv_images/x.csv" : String) ≠ "download/csv_images/x.csv" := by
  decide

/-- Claim C5, amended: the resolved key is obtained by removing every
(not just the first) occurrence of the token `download/` that is
delimited by word boundaries (preceded by start-of-string or a
non-word character, and followed by a word character), deleting every
right parenthesis, stripping leading slashes, and percent-decoding the
remainder; a decoding failure makes `setup` fail with status 404 and
code `FileEdits::CannotFindFile`.  On paths without the substring
`download` the token-removal pass is the identity. -/
theorem C5_amended (path : String) :
    parseFileKey path =
      (match decodeURIComponent
          (String.mk (stripLeadingSlashes (rmRParens (stripDownloadAux false path.data)))) with
        | some key => Except.ok key
        | none => Except.error cannotFindFileError) ∧
    cannotFindFileError.status = some (.num 404) ∧
    cannotFindFileError.code = some "FileEdits::CannotFindFile" ∧
    (¬ "download".data <:+: path.data → stripDownloadAux false path.data = path.data) :=
  ⟨rfl, rfl, rfl, fun h => stripDownloadAux_eq_self false path.data h⟩

/-- Claim C5, witness: concrete run of the amended theorem on a path
without the `download` substring. -/
theorem C5_witness :
    stripDownloadAux false "csv_images/a.csv".data = "csv_images/a.csv".data :=
  (C5_amended "csv_images/a.csv").2.2.2 (by decide)

/-- Claim C6: with `SOURCE_BUCKETS` absent, `setup` fails with status
400 and code `GetAllowedSourceBuckets::NoSourceBuckets` for every
store, so before any network access; with it present, the target
bucket is the first entry of the comma-separated, whitespace-stripped
list, independent of the event. -/
theorem C6_source_buckets (env : Env) (event : Event) :
    (env.SOURCE_BUCKETS = none →
      ∀ store : S3Store,
        setup env store event = .error noSourceBucketsError ∧
        noSourceBucketsError.status = some (.num 400) ∧
        noSourceBucketsError.code = some "GetAllowedSourceBuckets::NoSourceBuckets") ∧
    (∀ s, env.SOURCE_BUCKETS = some s →
      parseFileBucket env event =
        .ok (((splitOnChar ',' (rmAllWs s.data)).map String.mk).headD "") ∧
      ∀ event2, parseFileBucket env event = parseFileBucket env event2) := by
  constructor
  · intro h store
    refine ⟨?_, rfl, rfl⟩
    simp [setup, parseFileBucket, getAllowedSourceBuckets, h, Except.map]
  · intro s hs
    refine ⟨?_, fun event2 => rfl⟩
    simp [parseFileBucket, getAllowedSourceBuckets, hs, Except.map]

/-- Claim C6, witness: concrete run with `SOURCE_BUCKETS` absent. -/
theorem C6_witness :
    setup envNoBuckets storeErr { path := "/download/csv_images/a.csv" } =
      .error noSourceBucketsError :=
  ((C6_source_buckets envNoBuckets { path := "/download/csv_images/a.csv" }).1 rfl storeErr).1

/-- Claim C7: a store error with code `NoSuchKey` makes the fetch (and
`setup`) fail with status 404, any other store error with status 500;
both carry the store error code and a message ending in the requested
key; on success `ContentType` is copied from the object metadata and
`CacheControl` is the metadata value when present (and truthy), else
the default `max-age=31536000,public`. -/
theorem C7_fetch_errors_and_metadata (store : S3Store) (bucket key : String) :
    (∀ e, store bucket key = .error e →
      getOriginalFile store bucket key = .error
        { status := some (.num (if e.code = "NoSuchKey" then 404 else 500))
          code := some e.code
          message := e.message ++ " File Key : " ++ key } ∧
      ∃ p, e.message ++ " File Key : " ++ key = p ++ key) ∧
    (∀ obj, store bucket key = .ok obj →
      ∃ f, getOriginalFile store bucket key = .ok f ∧ f.Body = obj.Body ∧
        f.ContentType = obj.ContentType ∧
        (∀ c, obj.CacheControl = some c → c ≠ "" → f.CacheControl = c) ∧
        (obj.CacheControl = none → f.CacheControl = "max-age=31536000,public")) ∧
    (∀ env event e, parseFileBucket env event = .ok bucket →
      parseFileKey event.path = .ok key → checkAccess key = true →
      store bucket key = .error e →
      setup env store event = .error
        { status := some (.num (if e.code = "NoSuchKey" then 404 else 500))
          code := some e.code
          message := e.message ++ " File Key : " ++ key }) := by
  refine ⟨?_, ?_, ?_⟩
  · intro e he
    refine ⟨?_, e.message ++ " File Key : ", rfl⟩
    simp [getOriginalFile, he]
  · intro obj ho
    refine ⟨{ Body := obj.Body, ContentType := obj.ContentType
              CacheControl :=
                match obj.CacheControl with
                | some c => if c != "" then c else "max-age=31536000,public"
                | none => "max-age=31536000,public" },
      by simp [getOriginalFile, ho], rfl, rfl, ?_, ?_⟩
    · intro c hc hne
      simp [hc, hne]
    · intro hc
      simp [hc]
  · intro env event e hb hk hacc he
    simp [setup, hb, hk, hacc, getOriginalFile, he]

/-- Claim C7, witness: a `NoSuchKey` store error yields a 404 with the
code propagated and the key in the message. -/
theorem C7_witness :
    getOriginalFile storeNoKey "source-bucket-1" "csv_images/f.csv" = .error
      { status := some (.num 404), code := some "NoSuchKey"
        message := "The specified key does not exist. File Key : csv_images/f.csv" } := by
  have h := ((C7_fetch_errors_and_metadata storeNoKey "source-bucket-1" "csv_images/f.csv").1
    { code := "NoSuchKey", message := "The specified key does not exist." } rfl).1
  exact h.trans (by decide)

/-- Claim C8: for every handler failure when the fallback guard is off,
an error with a (truthy) explicit status yields a response with that
status, the JSON-serialized error as body and `isBase64Encoded` false;
an error without a status yields status 500 and the fixed generic
`InternalError` body. -/
theorem C8_structured_error (env : Env) (store : S3Store) (imf : ImageFlow)
    (event : Event) (err : JsError)
    (hatt : attemptOf env store imf event = .error err)
    (hfb : fallbackConfigured env = false) :
    (∀ v, err.status = some v → jsTruthy v = true →
      handler env store imf event =
        { statusCode := v, isBase64Encoded := false
          headers := getResponseHeaders env true event.isAlb
          body := jsonStringify err }) ∧
    (err.status = none →
      handler env store imf event =
        { statusCode := .num 500, isBase64Encoded := false
          headers := getResponseHeaders env true event.isAlb
          body := internalErrorBody }) := by
  constructor
  · intro v hv htr
    simp [handler, hatt, errorResponse, errorResponseI, hfb, structuredErrorResponse, hv, htr]
  · intro hv
    simp [handler, hatt, errorResponse, errorResponseI, hfb, structuredErrorResponse, hv]

set_option maxRecDepth 16384 in
/-- Claim C8, witness: with no fallback configured, the missing
`SOURCE_BUCKETS` failure (status 400) is serialized as the response. -/
theorem C8_witness :
    handler envNoBuckets storeErr imfNever { path := "/download/csv_images/a.csv" } =
      { statusCode := JsVal.num 400, isBase64Encoded := false
        headers := getResponseHeaders envNoBuckets true false
        body := jsonStringify noSourceBucketsError } :=
  (C8_structured_error envNoBuckets storeErr imfNever
    { path := "/download/csv_images/a.csv" } noSourceBucketsError
    (by decide) (by decide)).1 (JsVal.num 400) rfl (by decide)

/-- Claim C9: the dispatcher routes an event to the file flow exactly
when its path contains the literal substring `download` (the Boolean
test of the source is equivalent to list-infix containment); every
other event is routed to the image flow. -/
theorem C9_routing (env : Env) (store : S3Store) (imf : ImageFlow) (event : Event) :
    (strContains event.path "download" = true ↔ "download".data <:+: event.path.data) ∧
    ("download".data <:+: event.path.data →
      attemptOf env store imf event = fileFlowAttempt env store event) ∧
    (¬ "download".data <:+: event.path.data →
      attemptOf env store imf event = imf event) := by
  refine ⟨decide_eq_true_iff, fun h => ?_, fun h => ?_⟩ <;>
    simp [attemptOf, strContains, h]

/-- Claim C9, witness: a path containing `download` is routed to the
file flow. -/
theorem C9_witness :
    attemptOf envBucketOnly storeNoKey imfNever { path := "/download/csv_images/a.csv" } =
      fileFlowAttempt envBucketOnly storeNoKey { path := "/download/csv_images/a.csv" } :=
  (C9_routing envBucketOnly storeNoKey imfNever
    { path := "/download/csv_images/a.csv" }).2.1 (by decide)

/-- Claim C10, counterexample: the path `/download/csv_images/a%29b.csv`
resolves to the key `csv_images/a)b.csv` — percent-decoding reintroduces
the right parenthesis that the claim says can never survive — and a
store object under that key is addressed and fetched by `setup`. -/
theorem C10_counterexample :
    FileRequestHandler.setup { SOURCE_BUCKETS := some "b" } storeParen
        { path := "/download/csv_images/a%29b.csv" } =
      .ok { bucket := "b", key := "csv_images/a)b.csv", originalFile := [5, 6]
            ContentType := some "text/csv", CacheControl := "max-age=31536000,public" } ∧
    ("csv_images/a)b.csv".data.contains ')') = true := by
  decide

/-- Claim C10, amended: every literal right parenthesis is deleted from
the path before percent-decoding — the string handed to the decoder
never contains `)` — but decoding may reintroduce `)` through the
escape `%29`, so the resolved key can contain `)` and an object whose
key contains `)` can be addressed through the file flow. -/
theorem C10_amended (path : String) :
    ((stripLeadingSlashes (rmRParens (stripDownloadAux false path.data))).contains ')') =
      false ∧
    parseFileKey "/download/csv_images/x%29.csv" = .ok "csv_images/x).csv" := by
  constructor
  · cases h : (stripLeadingSlashes (rmRParens (stripDownloadAux false path.data))).contains ')' with
    | false => rfl
    | true =>
      exfalso
      have hm : ')' ∈ stripLeadingSlashes (rmRParens (stripDownloadAux false path.data)) := by
        simpa using h
      have hm2 : ')' ∈ rmRParens (stripDownloadAux false path.data) :=
        (List.dropWhile_sublist _).subset hm
      have := (List.mem_filter.mp hm2).2
      simp at this
  · decide
